import Mathlib

/-!
Verification of the analysis-result extraction and prompt-construction logic of
the submission-analysis front end (`src/services/openai_client.py`,
`src/ui/main_page.py`).

The Python code is dynamically typed and traverses decoded JSON with `dict.get`
chains inside a `try/except`.  We embed the decoded JSON values as an inductive
type `JsonValue` and give each Python primitive used by the code an explicit
Lean counterpart that returns `Except Unit _` where the Python operation can
raise (attribute errors on non-dicts, type errors on iteration or string
concatenation).  `json.loads` is an external library call; the embedding takes
the parser as an explicit parameter `parse : String → Except Unit JsonValue`
(an `.error` result models a raised `json.JSONDecodeError`).
-/

/-- A decoded JSON value, as produced by `json.loads`: `null`, booleans,
numbers, strings, arrays and objects (Python dicts with string keys, in
insertion order, keys unique after decoding). Numbers are modelled as
integers; no claim depends on fractional values. -/
inductive JsonValue where
  | null : JsonValue
  | bool : Bool → JsonValue
  | num : Int → JsonValue
  | str : String → JsonValue
  | arr : List JsonValue → JsonValue
  | obj : List (String × JsonValue) → JsonValue

namespace JsonValue

/-- Python `v.get(key, default)`: succeeds with the stored value (or the
default) when `v` is a dict, raises `AttributeError` otherwise (lists,
strings, numbers, booleans and `None` have no `.get` method). -/
def dictGet (v : JsonValue) (key : String) (dflt : JsonValue) :
    Except Unit JsonValue :=
  match v with
  | .obj kvs => .ok ((kvs.lookup key).getD dflt)
  | _ => .error ()

/-- Python `for x in v`: lists yield their elements, dicts their keys (as
strings), strings their characters (as one-character strings); numbers,
booleans and `None` raise `TypeError`. -/
def pyIter (v : JsonValue) : Except Unit (List JsonValue) :=
  match v with
  | .arr xs => .ok xs
  | .obj kvs => .ok (kvs.map (fun kv => .str kv.1))
  | .str s => .ok (s.data.map (fun c => .str (String.singleton c)))
  | _ => .error ()

/-- Python equality of a decoded JSON value with a string literal, as used by
`chat_name in ["summary", "applicant_lookup_agent"]`: true exactly when the
value is that string. -/
def pyEqStr (v : JsonValue) (s : String) : Bool :=
  match v with
  | .str t => t == s
  | _ => false

/-- Python truthiness of a decoded JSON value (`if content:`): `None`,
`False`, `0`, `""`, `[]` and `{}` are falsy, everything else truthy. -/
def pyTruthy (v : JsonValue) : Bool :=
  match v with
  | .null => false
  | .bool b => b
  | .num n => n != 0
  | .str s => s != ""
  | .arr xs => !xs.isEmpty
  | .obj kvs => !kvs.isEmpty

end JsonValue

/-- One analysis result, the dictionary built per uploaded file by
`process_submissions`.  The Python keys `"Submission Name"`, `"Analysis"`,
`"Thread ID"` and `"Message ID"` become optional fields so that
`dict.get(key, default)` is `Option.getD`. -/
structure ResultRecord where
  submissionName : Option String
  analysis : Option String
  threadId : Option String
  messageId : Option String
deriving Repr, DecidableEq

/-- The body of the extraction loop of `extract_analysis_content` for one
decoded entry `header`, threading the accumulated text `acc`:

```
chat_dict = header.get('__dict__', {})
chat_name = chat_dict.get('chat_name', '')
if chat_name in ["summary", "applicant_lookup_agent"]:
    chat_response = chat_dict.get('chat_response', {})
    chat_message = chat_response.get('chat_message', {})
    content = chat_message.get('__dict__', {}).get('content', '')
    if content:
        analysis_text += content + "\n"
```

An `.error` result models an exception raised inside the loop (an
`AttributeError` from `.get` on a non-dict, or a `TypeError` from
`content + "\n"` when a truthy `content` is not a string). -/
def processEntry (acc : String) (header : JsonValue) : Except Unit String := do
  let chat_dict ← header.dictGet "__dict__" (.obj [])
  let chat_name ← chat_dict.dictGet "chat_name" (.str "")
  if chat_name.pyEqStr "summary" || chat_name.pyEqStr "applicant_lookup_agent" then
    let chat_response ← chat_dict.dictGet "chat_response" (.obj [])
    let chat_message ← chat_response.dictGet "chat_message" (.obj [])
    let dunder ← chat_message.dictGet "__dict__" (.obj [])
    let content ← dunder.dictGet "content" (.str "")
    if content.pyTruthy then
      match content with
      | .str s => pure (acc ++ s ++ "\n")
      | _ => .error ()
    else
      pure acc
  else
    pure acc

/-- Embedding of `extract_analysis_content(analysis)` from
`src/services/openai_client.py`.  `parse` stands for `json.loads`.  The
`try` block decodes `analysis.get("Analysis", "{}")`, iterates over the
decoded value accumulating content via `processEntry`, and falls back to
`analysis.get("Analysis", "No analysis available")` either when the
accumulator is left empty or when any exception was raised. -/
def extract_analysis_content (parse : String → Except Unit JsonValue)
    (analysis : ResultRecord) : String :=
  let attempt : Except Unit String := do
    let analysis_data ← parse (analysis.analysis.getD "\x7b\x7d")
    let headers ← analysis_data.pyIter
    headers.foldlM processEntry ""
  match attempt with
  | .ok analysis_text =>
      if analysis_text == "" then analysis.analysis.getD "No analysis available"
      else analysis_text
  | .error _ => analysis.analysis.getD "No analysis available"

/-- The fixed preamble of `build_comparison_prompt`. -/
def cp_preamble : String :=
  "Please provide a comparative analysis of the following submission analyses:\n\n"

/-- The fixed instructional suffix of `build_comparison_prompt`. -/
def cp_suffix : String :=
  "Please provide an objective comparative analysis of the submissions based on their qualifications, experience, and skills. Create a table comparing key aspects across all submissions. DO NOT rank the submissions or suggest which one is better than others. The analysis should only highlight differences and similarities in an objective manner."

/-- The per-record block emitted by the loop of `build_comparison_prompt`:

```
prompt += f"Submission: {submission_name}\n"
prompt += f"Analysis: {analysis_text}\n\n"
```
-/
def comparisonBlock (parse : String → Except Unit JsonValue)
    (analysis : ResultRecord) : String :=
  "Submission: " ++ analysis.submissionName.getD "Unnamed Submission" ++ "\n"
    ++ "Analysis: " ++ extract_analysis_content parse analysis ++ "\n\n"

/-- Embedding of `build_comparison_prompt(analyses)`: the preamble, then one
`comparisonBlock` per record in input order, then the fixed suffix. -/
def build_comparison_prompt (parse : String → Except Unit JsonValue)
    (analyses : List ResultRecord) : String :=
  (analyses.foldl (fun prompt analysis => prompt ++ comparisonBlock parse analysis)
    cp_preamble) ++ cp_suffix

/-- Opening of the follow-up template, up to and including `"Submission: "`. -/
def fq_intro : String :=
  "Generate 5 tailored follow-up questions for the submission based on the following analysis:\n\nSubmission: "

/-- The `"\nAnalysis: "` label between the name and the extracted text. -/
def fq_analysis_label : String := "\nAnalysis: "

/-- The `"\n\nPlease include:\n"` line introducing the category list. -/
def fq_please_include : String := "\n\nPlease include:\n"

/-- The 5-category instruction block of the follow-up template (items 1–5;
items 2 and 3 end with a trailing space in the source). -/
def fq_categories : String :=
  "1. Questions that clarify points that need more explanation or context\n2. Questions about specific experiences or skills mentioned that would benefit from elaboration \n3. Questions about areas where the submission might have relevant content not mentioned \n4. Questions that help understand the intentions, goals, and motivations behind the submission\n5. Questions about preferences or additional details that would enhance understanding of the submission"

/-- The closing formatting instruction of the follow-up template. -/
def fq_format : String :=
  "\n\nFormat the questions as a numbered list with brief explanations for why each question is important to ask.\n"

/-- Embedding of `build_followup_questions_prompt(analysis)`: the f-string
template of the source, split at its two interpolation points
(`{submission_name}` and `{analysis_text}`). -/
def build_followup_questions_prompt (parse : String → Except Unit JsonValue)
    (analysis : ResultRecord) : String :=
  let submission_name := analysis.submissionName.getD "Unnamed Submission"
  let analysis_text := extract_analysis_content parse analysis
  fq_intro ++ submission_name ++ fq_analysis_label ++ analysis_text
    ++ fq_please_include ++ fq_categories ++ fq_format

/-- One chat message, a Python dict `{"role": ..., "content": ...}`. -/
structure ChatMessage where
  role : String
  content : String

/-- System message content used by `generate_followup_questions`. -/
def followup_system_content : String :=
  "You are an AI assistant for the SoCa (Submission over Criteria) tool that helps prepare follow-up questions for submissions. Your questions should help gather additional information, clarify details, and better understand the submission's content. Be specific, professional, and conversational."

/-- System message content used by `summarize_submission_analyses`. -/
def summary_system_content : String :=
  "You are an AI assistant for the SoCa (Submission over Criteria) tool that helps compare and summarize multiple submission analyses. Provide objective, factual comparisons without ranking submissions or indicating which ones are better. Focus on highlighting differences in qualifications, skills, and experience without making value judgments."

/-- Failure sentinel returned by `generate_followup_questions`. -/
def followup_failure_sentinel : String :=
  "Failed to generate follow-up questions due to an error."

/-- Failure sentinel returned by `summarize_submission_analyses`. -/
def summary_failure_sentinel : String :=
  "Failed to generate comparative analysis due to an error."

/-- Python `result if result else default` on an `Optional[str]`: both `None`
and the empty string are falsy and select the default. -/
def pyOrElse (result : Option String) (dflt : String) : String :=
  match result with
  | some r => if r == "" then dflt else r
  | none => dflt

/-- Embedding of `generate_followup_questions(analysis)`.  The outbound
Azure call is the parameter `get_chat_completion`, mapping the message list
to `Optional[str]` (`none` models `None`). -/
def generate_followup_questions
    (get_chat_completion : List ChatMessage → Option String)
    (parse : String → Except Unit JsonValue) (analysis : ResultRecord) : String :=
  let prompt := build_followup_questions_prompt parse analysis
  let result := get_chat_completion
    [⟨"system", followup_system_content⟩, ⟨"user", prompt⟩]
  pyOrElse result followup_failure_sentinel

/-- Embedding of `summarize_submission_analyses(analyses)`. -/
def summarize_submission_analyses
    (get_chat_completion : List ChatMessage → Option String)
    (parse : String → Except Unit JsonValue) (analyses : List ResultRecord) : String :=
  let prompt := build_comparison_prompt parse analyses
  let result := get_chat_completion
    [⟨"system", summary_system_content⟩, ⟨"user", prompt⟩]
  pyOrElse result summary_failure_sentinel

/-- Number of positions (over all suffixes, the empty one included) at which
`block` occurs in `text`.  Used both for Python's substring test `a in s` and
to state "exactly one instance of the instruction block". -/
def occCount (block : List Char) : List Char → Nat
  | [] => if block.isPrefixOf ([] : List Char) then 1 else 0
  | c :: rest =>
      (if block.isPrefixOf (c :: rest) then 1 else 0) + occCount block rest

namespace JsonValue

/-- Python `v[key]` with a string key: dict lookup (`KeyError` when absent),
`TypeError` on every other value. -/
def subscriptStr (v : JsonValue) (key : String) : Except Unit JsonValue :=
  match v with
  | .obj kvs =>
      match kvs.lookup key with
      | some x => .ok x
      | none => .error ()
  | _ => .error ()

/-- Python `v[i]` with a non-negative integer index: list indexing
(`IndexError` past the end), one-character string for strings, an error for
everything else (a dict raises `KeyError` since decoded JSON keys are
strings). -/
def subscriptNat (v : JsonValue) (i : Nat) : Except Unit JsonValue :=
  match v with
  | .arr xs =>
      match xs.get? i with
      | some x => .ok x
      | none => .error ()
  | .str s =>
      match s.data.get? i with
      | some c => .ok (.str (String.singleton c))
      | none => .error ()
  | _ => .error ()

/-- Python `key in v` for a string `key`: key test on dicts, elementwise
equality on lists, substring test on strings, `TypeError` otherwise. -/
def containsStr (v : JsonValue) (key : String) : Except Unit Bool :=
  match v with
  | .obj kvs => .ok (kvs.any (fun kv => kv.1 == key))
  | .arr xs => .ok (xs.any (fun x => x.pyEqStr key))
  | .str s => .ok (occCount key.data s.data != 0)
  | _ => .error ()

/-- Python `len(v)`: defined for lists, dicts and strings, `TypeError`
otherwise. -/
def pyLen (v : JsonValue) : Except Unit Nat :=
  match v with
  | .arr xs => .ok xs.length
  | .obj kvs => .ok kvs.length
  | .str s => .ok s.length
  | _ => .error ()

end JsonValue

namespace AzureOpenAIClient

/-- Embedding of `AzureOpenAIClient.get_chat_completion`.  The parameter
`response` models the outcome of `requests.post` / `raise_for_status` /
`response.json()`: `.error` is any exception raised up to and including JSON
decoding, `.ok data` the decoded response body.  The body checks
`"choices" in response_data and len(response_data["choices"]) > 0` and
returns `response_data["choices"][0]["message"]["content"]`; any exception
raised by those accesses is caught by the surrounding `try` and yields
`None`, as does a failing check. -/
def get_chat_completion (response : Except Unit JsonValue) : Option JsonValue :=
  let attempt : Except Unit (Option JsonValue) := do
    let response_data ← response
    let hasChoices ← response_data.containsStr "choices"
    if hasChoices then
      let choices ← response_data.subscriptStr "choices"
      let n ← choices.pyLen
      if n > 0 then
        let choice0 ← choices.subscriptNat 0
        let message ← choice0.subscriptStr "message"
        let content ← message.subscriptStr "content"
        pure (some content)
      else
        pure none
    else
      pure none
  match attempt with
  | .ok r => r
  | .error _ => none

end AzureOpenAIClient

/-- One uploaded file, as far as `process_submissions` inspects it: only its
display name (text extraction is the external collaborator
`extract_text_from_file`). -/
structure UploadedFile where
  name : String

/-- The decoded body returned by `APIClient.create_chat`: per the backend
interface it either carries an `"error"` key or the
`agent_response`/`thread_id`/`message_id` fields, each possibly absent. -/
structure ApiResponse where
  error : Option String
  agent_response : Option String
  thread_id : Option String
  message_id : Option String

/-- The identifier `f"submission_{i+1}"` sent with the `i`-th file
(0-based `i`, as produced by `enumerate`). -/
def submissionIdentifier (i : Nat) : String := "submission_" ++ toString (i + 1)

/-- Embedding of `process_submissions(uploaded_files)` from
`src/ui/main_page.py`.  The collaborators `extract_text_from_file` and
`APIClient.create_chat` are parameters; progress reporting and session-state
resets are UI side effects with no influence on the returned list.  A
response carrying an `"error"` key is logged and skipped (`continue`);
otherwise a result dict is appended with `"Analysis"` defaulting to
`"Analysis failed"` and the correlation ids defaulting to `""`. -/
def process_submissions (extract_text_from_file : UploadedFile → String)
    (create_chat : String → String → ApiResponse)
    (uploaded_files : List UploadedFile) : List ResultRecord :=
  uploaded_files.enum.foldl (fun results iFile =>
    let submission_text := extract_text_from_file iFile.2
    let response := create_chat submission_text (submissionIdentifier iFile.1)
    if response.error.isSome then results
    else
      results ++ [{ submissionName := some iFile.2.name,
                    analysis := some (response.agent_response.getD "Analysis failed"),
                    threadId := some (response.thread_id.getD ""),
                    messageId := some (response.message_id.getD "") }]) []

/-- The text one decoded entry contributes to the accumulator when processed
from an empty accumulator: the nested content followed by `"\n"` for a
well-shaped allow-listed entry with truthy content, `""` for a skipped
entry, and (conventionally) `""` when processing raises. -/
def entryContribution (h : JsonValue) : String :=
  match processEntry "" h with
  | .ok s => s
  | .error _ => ""

/-- All entries of the list are processed by the extraction loop without
raising. -/
def entriesWellShaped (l : List JsonValue) : Bool :=
  l.all (fun h => (processEntry "" h).isOk)

/-- The entry's `chat_name` (read along the code's `__dict__` path) is one of
the allow-listed tags `"summary"`, `"applicant_lookup_agent"`. -/
def entryAllowListed (h : JsonValue) : Bool :=
  match h.dictGet "__dict__" (.obj []) with
  | .error _ => false
  | .ok chat_dict =>
      match chat_dict.dictGet "chat_name" (.str "") with
      | .error _ => false
      | .ok chat_name =>
          chat_name.pyEqStr "summary" || chat_name.pyEqStr "applicant_lookup_agent"

/-- Reading of claim C1's words, for comparison with the code: the content a
single entry contributes when its `chatName` is `"summary"` (and only then)
and its nested content is a non-empty string, newline-terminated; `""`
otherwise.  The nesting path is the one the spec's scenario exhibits. -/
def summaryEntryContent (h : JsonValue) : String :=
  let read : Except Unit String := do
    let chat_dict ← h.dictGet "__dict__" (.obj [])
    let chat_name ← chat_dict.dictGet "chat_name" (.str "")
    if chat_name.pyEqStr "summary" then
      let chat_response ← chat_dict.dictGet "chat_response" (.obj [])
      let chat_message ← chat_response.dictGet "chat_message" (.obj [])
      let dunder ← chat_message.dictGet "__dict__" (.obj [])
      let content ← dunder.dictGet "content" (.str "")
      match content with
      | .str s => if s != "" then pure (s ++ "\n") else pure ""
      | _ => pure ""
    else
      pure ""
  match read with
  | .ok s => s
  | .error _ => ""

/-- Concatenation of the per-record blocks of `build_comparison_prompt`, in
input order. -/
def comparisonBlocks (parse : String → Except Unit JsonValue)
    (analyses : List ResultRecord) : String :=
  String.join (analyses.map (comparisonBlock parse))

/-- The record `process_submissions` builds for the `i`-th uploaded file
(`none` when the backend response carries an `"error"` key and the file is
skipped). -/
def submissionRecord (extract_text_from_file : UploadedFile → String)
    (create_chat : String → String → ApiResponse)
    (i : Nat) (f : UploadedFile) : Option ResultRecord :=
  let response := create_chat (extract_text_from_file f) (submissionIdentifier i)
  if response.error.isSome then none
  else
    some { submissionName := some f.name,
           analysis := some (response.agent_response.getD "Analysis failed"),
           threadId := some (response.thread_id.getD ""),
           messageId := some (response.message_id.getD "") }

/-- A finite-table model of `json.loads` for concrete test payloads: decodes
the listed payload strings, raises on everything else (as `json.loads` does
on e.g. `"not json"` or `""`). -/
def parseTable (tbl : List (String × JsonValue)) :
    String → Except Unit JsonValue :=
  fun s =>
    match tbl.lookup s with
    | some v => .ok v
    | none => .error ()

/-- A model of `json.loads` on inputs where decoding always raises. -/
def parseFailAll : String → Except Unit JsonValue := fun _ => .error ()

/-- A decoded `"summary"` chat entry with content `"Strong candidate."` (the
shape of the spec's scenario payload). -/
def entrySummaryA : JsonValue :=
  .obj [("__dict__", .obj [
    ("chat_name", .str "summary"),
    ("chat_response", .obj [
      ("chat_message", .obj [
        ("__dict__", .obj [("content", .str "Strong candidate.")])])])])]

/-- A decoded `"applicant_lookup_agent"` chat entry with content
`"Lookup details."`. -/
def entryLookupB : JsonValue :=
  .obj [("__dict__", .obj [
    ("chat_name", .str "applicant_lookup_agent"),
    ("chat_response", .obj [
      ("chat_message", .obj [
        ("__dict__", .obj [("content", .str "Lookup details.")])])])])]

/-- A decoded chat entry with a tag outside the allow-list. -/
def entryOtherC : JsonValue :=
  .obj [("__dict__", .obj [
    ("chat_name", .str "criteria_agent"),
    ("chat_response", .obj [
      ("chat_message", .obj [
        ("__dict__", .obj [("content", .str "Criteria notes.")])])])])]

/-! ### General helper lemmas -/

theorem sjoin_cons (s : String) (l : List String) :
    String.join (s :: l) = s ++ String.join l := by
  simp [String.join_eq]; rfl

theorem sjoin_append (l1 l2 : List String) :
    String.join (l1 ++ l2) = String.join l1 ++ String.join l2 := by
  simp [String.join_eq]; rfl

theorem sjoin_ne_empty_of_mem {s : String} {l : List String}
    (hm : s ∈ l) (hne : s ≠ "") : String.join l ≠ "" := by
  induction l with
  | nil => cases hm
  | cons x xs ih =>
      rw [sjoin_cons]
      intro hz
      have hlen := congrArg String.length hz
      rw [String.length_append] at hlen
      have h0 : ("" : String).length = 0 := rfl
      rw [h0] at hlen
      rcases List.mem_cons.mp hm with hx | hx
      · subst hx
        have : s.length = 0 := by omega
        exact hne (String.ext (List.length_eq_zero.mp this))
      · have : String.join xs = "" := by
          have : (String.join xs).length = 0 := by omega
          exact String.ext (List.length_eq_zero.mp this)
        exact ih hx this

theorem processEntry_shift (acc : String) (h : JsonValue) :
    processEntry acc h = Except.map (fun s => acc ++ s) (processEntry "" h) := by
  simp only [processEntry, bind, Except.bind, pure, Except.pure]
  repeat' split
  all_goals simp_all [Except.map, String.append_assoc]

theorem processEntry_ok_of_isOk (h : JsonValue)
    (hok : (processEntry "" h).isOk = true) :
    processEntry "" h = .ok (entryContribution h) := by
  unfold entryContribution
  cases hp : processEntry "" h with
  | ok s => rfl
  | error e => rw [hp] at hok; simp [Except.isOk, Except.toBool] at hok

theorem foldlM_processEntry_wellShaped (l : List JsonValue) :
    ∀ acc : String, entriesWellShaped l = true →
      l.foldlM processEntry acc =
        .ok (acc ++ String.join (l.map entryContribution)) := by
  induction l with
  | nil =>
      intro acc _
      simp [List.foldlM, String.join, String.append_empty, pure, Except.pure]
  | cons h t ih =>
      intro acc hws
      rw [entriesWellShaped, List.all_cons, Bool.and_eq_true] at hws
      rw [List.foldlM_cons, processEntry_shift, processEntry_ok_of_isOk h hws.1]
      simp only [Except.map, bind, Except.bind]
      rw [ih (acc ++ entryContribution h) hws.2, List.map_cons, sjoin_cons,
        String.append_assoc]

theorem processEntry_not_allowed (h : JsonValue) (acc : String) :
    entryAllowListed h = false →
      processEntry acc h = .ok acc ∨ processEntry acc h = .error () := by
  simp only [processEntry, entryAllowListed, bind, Except.bind, pure, Except.pure]
  repeat' split
  all_goals (intros; simp_all)

theorem foldlM_processEntry_not_allowed (l : List JsonValue) :
    ∀ acc : String, (∀ h ∈ l, entryAllowListed h = false) →
      l.foldlM processEntry acc = .ok acc ∨
        l.foldlM processEntry acc = .error () := by
  induction l with
  | nil => intro acc _; left; rfl
  | cons h t ih =>
      intro acc hall
      rw [List.foldlM_cons]
      rcases processEntry_not_allowed h acc (hall h (List.mem_cons_self h t)) with
        he | he <;> rw [he]
      · exact ih acc (fun x hx => hall x (List.mem_cons_of_mem h hx))
      · right; rfl

theorem comparison_foldl (parse : String → Except Unit JsonValue)
    (l : List ResultRecord) :
    ∀ init : String,
      l.foldl (fun prompt analysis => prompt ++ comparisonBlock parse analysis) init =
        init ++ comparisonBlocks parse l := by
  induction l with
  | nil => intro init; simp [comparisonBlocks, String.join, String.append_empty]
  | cons h t ih =>
      intro init
      simp only [List.foldl_cons, ih, comparisonBlocks, List.map_cons, sjoin_cons,
        String.append_assoc]

theorem build_comparison_prompt_eq (parse : String → Except Unit JsonValue)
    (l : List ResultRecord) :
    build_comparison_prompt parse l =
      cp_preamble ++ comparisonBlocks parse l ++ cp_suffix := by
  rw [build_comparison_prompt, comparison_foldl]

theorem comparisonBlocks_append (parse : String → Except Unit JsonValue)
    (l1 l2 : List ResultRecord) :
    comparisonBlocks parse (l1 ++ l2) =
      comparisonBlocks parse l1 ++ comparisonBlocks parse l2 := by
  rw [comparisonBlocks, List.map_append, sjoin_append]; rfl

theorem comparisonBlocks_cons (parse : String → Except Unit JsonValue)
    (a : ResultRecord) (l : List ResultRecord) :
    comparisonBlocks parse (a :: l) =
      comparisonBlock parse a ++ comparisonBlocks parse l := by
  rw [comparisonBlocks, List.map_cons, sjoin_cons]; rfl

theorem extract_parse_error (parse : String → Except Unit JsonValue)
    (rec : ResultRecord) (p : String)
    (hp : rec.analysis = some p) (hf : parse p = .error ()) :
    extract_analysis_content parse rec = p := by
  simp [extract_analysis_content, hp, hf, bind, Except.bind]

theorem extract_wellShaped (parse : String → Except Unit JsonValue)
    (rec : ResultRecord) (p : String) (v : JsonValue) (entries : List JsonValue)
    (hp : rec.analysis = some p) (hv : parse p = .ok v)
    (hit : v.pyIter = .ok entries) (hws : entriesWellShaped entries = true) :
    extract_analysis_content parse rec =
      if String.join (entries.map entryContribution) = "" then p
      else String.join (entries.map entryContribution) := by
  unfold extract_analysis_content
  simp only [hp, Option.getD_some, bind, Except.bind, hv, hit]
  rw [foldlM_processEntry_wellShaped entries "" hws]
  simp only [String.empty_append]
  split
  · next hcond => rw [beq_iff_eq] at hcond; simp [hcond]
  · next hcond => rw [beq_iff_eq] at hcond; simp [hcond]

theorem extract_no_allowed (parse : String → Except Unit JsonValue)
    (rec : ResultRecord) (p : String) (v : JsonValue)
    (hp : rec.analysis = some p) (hv : parse p = .ok v)
    (hnall : ∀ entries, v.pyIter = .ok entries →
      ∀ h ∈ entries, entryAllowListed h = false) :
    extract_analysis_content parse rec = p := by
  unfold extract_analysis_content
  simp only [hp, Option.getD_some, bind, Except.bind, hv]
  cases hit : v.pyIter with
  | error e => simp
  | ok entries =>
      rcases foldlM_processEntry_not_allowed entries ""
        (hnall entries hit) with hf | hf <;> simp [hf]

theorem foldlM_processEntry_error_mem (l1 l2 : List JsonValue) (h : JsonValue)
    (hb : processEntry "" h = .error ()) (acc : String) :
    (l1 ++ h :: l2).foldlM processEntry acc = .error () := by
  rw [List.foldlM_append]
  cases hf : l1.foldlM processEntry acc with
  | error e => simp [bind, Except.bind]
  | ok a =>
      simp only [bind, Except.bind]
      rw [List.foldlM_cons, processEntry_shift, hb]
      simp [Except.map, bind, Except.bind]

theorem foldlM_processEntry_skip (l1 l2 : List JsonValue) (h : JsonValue)
    (hskip : processEntry "" h = .ok "") (acc : String) :
    (l1 ++ h :: l2).foldlM processEntry acc =
      (l1 ++ l2).foldlM processEntry acc := by
  rw [List.foldlM_append, List.foldlM_append]
  cases hf : l1.foldlM processEntry acc with
  | error e => rfl
  | ok a =>
      simp only [bind, Except.bind]
      rw [List.foldlM_cons, processEntry_shift, hskip]
      simp [Except.map, bind, Except.bind, String.append_empty]

theorem isPrefixOf_append_self (l t : List Char) : l.isPrefixOf (l ++ t) = true := by
  induction l with
  | nil => simp [List.isPrefixOf]
  | cons c cs ih => simp [List.isPrefixOf, ih]

theorem occCount_eq_zero {c : Char} {bt : List Char} :
    ∀ {text : List Char}, c ∉ text → occCount (c :: bt) text = 0 := by
  intro text
  induction text with
  | nil => intro _; simp [occCount, List.isPrefixOf]
  | cons x xs ih =>
      intro hc
      have h1 : ¬(c = x) := fun he => hc (he ▸ List.mem_cons_self x xs)
      have h2 : c ∉ xs := fun hm => hc (List.mem_cons_of_mem x hm)
      simp [occCount, List.isPrefixOf, h1, ih h2]

theorem occCount_append_zero {c : Char} {bt : List Char} (xs ys : List Char)
    (hc : c ∉ xs) :
    occCount (c :: bt) (xs ++ ys) = occCount (c :: bt) ys := by
  induction xs with
  | nil => rfl
  | cons x xt ih =>
      have h1 : ¬(c = x) := fun he => hc (he ▸ List.mem_cons_self x xt)
      have h2 : c ∉ xt := fun hm => hc (List.mem_cons_of_mem x hm)
      rw [List.cons_append]
      simp [occCount, List.isPrefixOf, h1, ih h2]

theorem occCount_front {c : Char} {bt : List Char} (ys : List Char)
    (hbt : c ∉ bt) :
    occCount (c :: bt) ((c :: bt) ++ ys) = 1 + occCount (c :: bt) ys := by
  rw [List.cons_append, occCount]
  rw [← List.cons_append, isPrefixOf_append_self]
  simp [occCount_append_zero bt ys hbt]

theorem process_submissions_eq_filterMap (ext : UploadedFile → String)
    (cc : String → String → ApiResponse) (files : List UploadedFile) :
    process_submissions ext cc files =
      files.enum.filterMap (fun p => submissionRecord ext cc p.1 p.2) := by
  unfold process_submissions
  suffices h : ∀ (l : List (Nat × UploadedFile)) (acc : List ResultRecord),
      l.foldl (fun results iFile =>
        let submission_text := ext iFile.2
        let response := cc submission_text (submissionIdentifier iFile.1)
        if response.error.isSome then results
        else
          results ++ [{ submissionName := some iFile.2.name,
                        analysis := some (response.agent_response.getD "Analysis failed"),
                        threadId := some (response.thread_id.getD ""),
                        messageId := some (response.message_id.getD "") }]) acc
      = acc ++ l.filterMap (fun p => submissionRecord ext cc p.1 p.2) by
    simpa using h files.enum []
  intro l
  induction l with
  | nil => intro acc; simp
  | cons p t ih =>
      intro acc
      rw [List.foldl_cons, List.filterMap_cons]
      by_cases he : (cc (ext p.2) (submissionIdentifier p.1)).error.isSome
      · simp [he, submissionRecord, ih]
      · simp [he, submissionRecord, ih]

theorem submissionRecord_analysis_isSome (ext : UploadedFile → String)
    (cc : String → String → ApiResponse) (i : Nat) (f : UploadedFile)
    (rec : ResultRecord) (hr : submissionRecord ext cc i f = some rec) :
    rec.analysis.isSome = true := by
  unfold submissionRecord at hr
  dsimp only at hr
  by_cases he : (cc (ext f) (submissionIdentifier i)).error.isSome
  · rw [if_pos he] at hr; cases hr
  · rw [if_neg he] at hr
    injection hr with hr
    subst hr
    rfl

/-! ### Claim theorems -/

/-- C1, counterexample: a payload decoding to one `"summary"` entry and one
`"applicant_lookup_agent"` entry satisfies the claim's hypothesis (it is
well-formed JSON with a `"summary"` entry carrying non-empty nested
content), yet the extractor also concatenates the lookup entry's content,
so its output is not the concatenation of the summary entries' contents
alone. -/
theorem extract_summary_only_refuted :
    parseTable [("payload-both", .arr [entrySummaryA, entryLookupB])]
        "payload-both" = .ok (.arr [entrySummaryA, entryLookupB]) ∧
    summaryEntryContent entrySummaryA = "Strong candidate.\n" ∧
    String.join ([entrySummaryA, entryLookupB].map summaryEntryContent) =
      "Strong candidate.\n" ∧
    extract_analysis_content
        (parseTable [("payload-both", .arr [entrySummaryA, entryLookupB])])
        ⟨some "cv.pdf", some "payload-both", some "", some ""⟩ =
      "Strong candidate.\nLookup details.\n" ∧
    ("Strong candidate.\nLookup details.\n" : String) ≠ "Strong candidate.\n" := by
  refine ⟨rfl, rfl, ?_, rfl, ?_⟩ <;> decide

/-- C1 (amended): for every payload whose decoded value iterates to entries
that all process without raising, and at least one entry contributes
content, the extractor returns exactly the newline-terminated concatenation
of the contributions of the allow-listed (`"summary"` or
`"applicant_lookup_agent"`) entries, in encounter order. -/
theorem extract_allowListed_concat (parse : String → Except Unit JsonValue)
    (rec : ResultRecord) (p : String) (v : JsonValue) (entries : List JsonValue)
    (hp : rec.analysis = some p) (hv : parse p = .ok v)
    (hit : v.pyIter = .ok entries) (hws : entriesWellShaped entries = true)
    (hex : ∃ h ∈ entries, entryContribution h ≠ "") :
    extract_analysis_content parse rec =
      String.join (entries.map entryContribution) := by
  obtain ⟨h0, hm, hne⟩ := hex
  have hjoin : String.join (entries.map entryContribution) ≠ "" :=
    sjoin_ne_empty_of_mem (List.mem_map_of_mem entryContribution hm) hne
  rw [extract_wellShaped parse rec p v entries hp hv hit hws, if_neg hjoin]

/-- C1, witness: the spec's scenario payload (one `"summary"` entry with
content `"Strong candidate."`) extracts to `"Strong candidate.\n"`. -/
theorem extract_allowListed_concat_witness :
    extract_analysis_content (parseTable [("payload-sum", .arr [entrySummaryA])])
        ⟨some "cv.pdf", some "payload-sum", some "", some ""⟩ =
      String.join ([entrySummaryA].map entryContribution) ∧
    String.join ([entrySummaryA].map entryContribution) = "Strong candidate.\n" :=
  ⟨extract_allowListed_concat _ _ "payload-sum" _ _ rfl rfl rfl (by decide)
      ⟨entrySummaryA, by simp, by decide⟩,
    by decide⟩

/-- C2, counterexample: an empty (but present) payload fails JSON parsing,
and the extractor returns it unchanged — the empty string — rather than the
`"No analysis available"` sentinel the claim promises for an empty
payload. -/
theorem extract_empty_payload_not_sentinel :
    parseFailAll "" = .error () ∧
    extract_analysis_content parseFailAll
        ⟨some "cv.pdf", some "", some "", some ""⟩ = "" ∧
    ("" : String) ≠ "No analysis available" := by
  refine ⟨rfl, rfl, ?_⟩; decide

/-- C2 (amended): when the payload is present and fails JSON parsing the
extractor returns it unchanged (even when it is the empty string), and the
`"No analysis available"` sentinel is returned exactly when the `"Analysis"`
key is absent (in which case the code parses the default `"{}"`, which
decodes to the empty object).  Both functions are total, so no exception
reaches the caller. -/
theorem extract_parse_failure_behavior :
    (∀ (parse : String → Except Unit JsonValue) (rec : ResultRecord) (p : String),
        rec.analysis = some p → parse p = .error () →
          extract_analysis_content parse rec = p) ∧
    (∀ (parse : String → Except Unit JsonValue) (nm t m : Option String),
        parse "\x7b\x7d" = .ok (.obj []) →
          extract_analysis_content parse ⟨nm, none, t, m⟩ =
            "No analysis available") := by
  constructor
  · intro parse rec p hp hf
    exact extract_parse_error parse rec p hp hf
  · intro parse nm t m hb
    unfold extract_analysis_content
    simp [hb, bind, Except.bind, JsonValue.pyIter, List.foldlM, pure, Except.pure]

/-- C2, witness: the spec's `"not json"` scenario returns `"not json"`
unchanged, and a record without an `"Analysis"` key yields the sentinel. -/
theorem extract_parse_failure_behavior_witness :
    extract_analysis_content parseFailAll
        ⟨some "cv.pdf", some "not json", some "", some ""⟩ = "not json" ∧
    extract_analysis_content (parseTable [("\x7b\x7d", .obj [])])
        ⟨some "cv.pdf", none, none, none⟩ = "No analysis available" :=
  ⟨extract_parse_failure_behavior.1 parseFailAll _ "not json" rfl rfl,
    extract_parse_failure_behavior.2 (parseTable [("\x7b\x7d", .obj [])])
      (some "cv.pdf") none none rfl⟩

/-- C3, counterexample: a payload decoding to a well-shaped `"summary"` entry
followed by a wrong-typed entry (the number `42`, whose `.get` access
raises).  The claim says only the bad entry is skipped and the accumulated
`"Strong candidate.\n"` is kept; the code instead catches the exception at
the top level, discards the accumulated content and returns the raw
payload. -/
theorem extract_wrongTyped_aborts :
    processEntry "" entrySummaryA = .ok "Strong candidate.\n" ∧
    processEntry "" (.num 42) = .error () ∧
    extract_analysis_content
        (parseTable [("payload-bad", .arr [entrySummaryA, .num 42])])
        ⟨some "cv.pdf", some "payload-bad", some "", some ""⟩ = "payload-bad" ∧
    ("payload-bad" : String) ≠ "Strong candidate.\n" := by
  refine ⟨rfl, rfl, rfl, ?_⟩; decide

/-- C3 (amended): an entry that contributes no content — in particular one
with a missing field at any nesting level, where `dict.get` returns the
default — is skipped and the traversal continues unchanged over the
remaining entries; but an entry whose processing raises (a wrong-typed value
breaking `.get` attribute access or string concatenation) aborts the whole
traversal, and the extractor falls back to the raw payload, discarding
content accumulated from other entries.  In both cases no exception reaches
the caller. -/
theorem extract_mismatch_behavior :
    (∀ (l1 l2 : List JsonValue) (h : JsonValue) (acc : String),
        processEntry "" h = .ok "" →
          (l1 ++ h :: l2).foldlM processEntry acc =
            (l1 ++ l2).foldlM processEntry acc) ∧
    (∀ (parse : String → Except Unit JsonValue) (rec : ResultRecord)
        (p : String) (v : JsonValue) (l1 l2 : List JsonValue) (h : JsonValue),
        rec.analysis = some p → parse p = .ok v →
          v.pyIter = .ok (l1 ++ h :: l2) → processEntry "" h = .error () →
            extract_analysis_content parse rec = p) := by
  constructor
  · intro l1 l2 h acc hskip
    exact foldlM_processEntry_skip l1 l2 h hskip acc
  · intro parse rec p v l1 l2 h hp hv hit hb
    unfold extract_analysis_content
    simp only [hp, Option.getD_some, bind, Except.bind, hv, hit]
    rw [foldlM_processEntry_error_mem l1 l2 h hb ""]

/-- C3, witness: an empty-dict entry (all fields missing) is skipped without
disturbing the entries around it, and a numeric entry aborts extraction to
the raw-payload fallback. -/
theorem extract_mismatch_behavior_witness :
    ([entrySummaryA] ++ JsonValue.obj [] :: [entryLookupB]).foldlM
        processEntry "" =
      ([entrySummaryA] ++ [entryLookupB]).foldlM processEntry "" ∧
    extract_analysis_content
        (parseTable [("payload-bad2", .arr [JsonValue.num 42, entryLookupB])])
        ⟨some "cv.pdf", some "payload-bad2", some "", some ""⟩ = "payload-bad2" :=
  ⟨extract_mismatch_behavior.1 [entrySummaryA] [entryLookupB]
      (JsonValue.obj []) "" rfl,
    extract_mismatch_behavior.2
      (parseTable [("payload-bad2", .arr [JsonValue.num 42, entryLookupB])])
      ⟨some "cv.pdf", some "payload-bad2", some "", some ""⟩ "payload-bad2"
      (.arr [JsonValue.num 42, entryLookupB]) [] [entryLookupB]
      (JsonValue.num 42) rfl rfl rfl rfl⟩

/-- C4: a payload that parses but whose decoded entries contain no
allow-listed `chat_name` leaves the accumulator empty (or raises on a
malformed entry), and the extractor falls back to the original raw payload
string in either case. -/
theorem extract_no_allowListed_returns_raw
    (parse : String → Except Unit JsonValue) (rec : ResultRecord)
    (p : String) (v : JsonValue)
    (hp : rec.analysis = some p) (hv : parse p = .ok v)
    (hnall : ∀ entries, v.pyIter = .ok entries →
      ∀ h ∈ entries, entryAllowListed h = false) :
    extract_analysis_content parse rec = p :=
  extract_no_allowed parse rec p v hp hv hnall

/-- C4, witness: a payload with a single `"criteria_agent"` entry falls back
to the raw payload string. -/
theorem extract_no_allowListed_returns_raw_witness :
    extract_analysis_content (parseTable [("payload-other", .arr [entryOtherC])])
        ⟨some "cv.pdf", some "payload-other", some "", some ""⟩ =
      "payload-other" :=
  extract_no_allowListed_returns_raw
    (parseTable [("payload-other", .arr [entryOtherC])])
    ⟨some "cv.pdf", some "payload-other", some "", some ""⟩
    "payload-other" (.arr [entryOtherC]) rfl rfl
    (by
      intro entries hit h hm
      injection hit with hit
      subst hit
      rw [List.mem_singleton] at hm
      subst hm
      rfl)

/-- C5: `build_comparison_prompt` is the preamble, one labeled block per
record in input order, and the fixed suffix; swapping two records therefore
swaps exactly their blocks.  For two records named `"A"` and `"B"` in that
order, the output contains `"Submission: A"` before `"Submission: B"`. -/
theorem build_comparison_prompt_order :
    (∀ (parse : String → Except Unit JsonValue) (a b : ResultRecord)
        (l1 l2 l3 : List ResultRecord),
      build_comparison_prompt parse (l1 ++ a :: (l2 ++ b :: l3)) =
        cp_preamble ++ comparisonBlocks parse l1 ++ comparisonBlock parse a ++
          comparisonBlocks parse l2 ++ comparisonBlock parse b ++
          comparisonBlocks parse l3 ++ cp_suffix ∧
      build_comparison_prompt parse (l1 ++ b :: (l2 ++ a :: l3)) =
        cp_preamble ++ comparisonBlocks parse l1 ++ comparisonBlock parse b ++
          comparisonBlocks parse l2 ++ comparisonBlock parse a ++
          comparisonBlocks parse l3 ++ cp_suffix) ∧
    (∃ s1 s2 s3 : String,
      build_comparison_prompt parseFailAll
          [⟨some "A", some "raw-a", some "", some ""⟩,
           ⟨some "B", some "raw-b", some "", some ""⟩] =
        s1 ++ "Submission: A" ++ s2 ++ "Submission: B" ++ s3) := by
  constructor
  · intro parse a b l1 l2 l3
    constructor <;>
      simp [build_comparison_prompt_eq, comparisonBlocks_append,
        comparisonBlocks_cons, String.append_assoc]
  · refine ⟨cp_preamble, "\nAnalysis: raw-a\n\n",
      "\nAnalysis: raw-b\n\n" ++ cp_suffix, ?_⟩
    rw [build_comparison_prompt_eq]
    have hra : comparisonBlock parseFailAll
        ⟨some "A", some "raw-a", some "", some ""⟩ =
        "Submission: A" ++ "\nAnalysis: raw-a\n\n" := rfl
    have hrb : comparisonBlock parseFailAll
        ⟨some "B", some "raw-b", some "", some ""⟩ =
        "Submission: B" ++ "\nAnalysis: raw-b\n\n" := rfl
    rw [comparisonBlocks_cons, comparisonBlocks_cons, hra, hrb]
    have hnil : comparisonBlocks parseFailAll [] = "" := rfl
    rw [hnil]
    simp only [String.append_assoc, String.append_empty]

set_option maxRecDepth 8192 in
/-- C6, counterexample: the claim quantifies over every record, but a record
whose submission name is itself the 5-category instruction block makes the
block occur twice in the output of `build_followup_questions_prompt`, so
"exactly one instance" fails for it. -/
theorem followup_prompt_two_blocks :
    occCount fq_categories.data
        (build_followup_questions_prompt parseFailAll
          ⟨some fq_categories, some "x", some "", some ""⟩).data = 2 ∧
    (2 : Nat) ≠ 1 := by
  refine ⟨?_, by decide⟩
  have hb : build_followup_questions_prompt parseFailAll
      ⟨some fq_categories, some "x", some "", some ""⟩ =
      fq_intro ++ fq_categories ++ fq_analysis_label ++ "x"
        ++ fq_please_include ++ fq_categories ++ fq_format := rfl
  rw [hb]
  have hsplit : (fq_intro ++ fq_categories ++ fq_analysis_label ++ "x"
      ++ fq_please_include ++ fq_categories ++ fq_format).data =
      fq_intro.data ++ (fq_categories.data ++ (fq_analysis_label.data ++
        (("x" : String).data ++ (fq_please_include.data ++
          (fq_categories.data ++ fq_format.data))))) := by
    simp [String.data_append, List.append_assoc]
  rw [hsplit]
  have hbl : fq_categories.data = '1' :: fq_categories.data.tail := rfl
  rw [hbl]
  rw [occCount_append_zero fq_intro.data _ (by decide)]
  rw [occCount_front _ (by decide)]
  rw [occCount_append_zero fq_analysis_label.data _ (by decide)]
  rw [occCount_append_zero ("x" : String).data _ (by decide)]
  rw [occCount_append_zero fq_please_include.data _ (by decide)]
  rw [occCount_front _ (by decide)]
  rw [occCount_eq_zero (by decide)]

set_option maxRecDepth 8192 in
/-- C6 (amended): the output of `build_followup_questions_prompt` always
contains the record's name, and — provided neither the name nor the
extracted analysis text contains the character `'1'` that opens the
5-category instruction block (true of every realistic file name; the block
itself would otherwise be injectable through them, as the counterexample
shows) — the 5-category instruction block occurs in it exactly once. -/
theorem followup_prompt_name_and_block
    (parse : String → Except Unit JsonValue) (rec : ResultRecord) :
    (∃ s1 s2 : String, build_followup_questions_prompt parse rec =
        s1 ++ rec.submissionName.getD "Unnamed Submission" ++ s2) ∧
    ('1' ∉ (rec.submissionName.getD "Unnamed Submission").data →
     '1' ∉ (extract_analysis_content parse rec).data →
      occCount fq_categories.data
        (build_followup_questions_prompt parse rec).data = 1) := by
  constructor
  · exact ⟨fq_intro, fq_analysis_label ++ extract_analysis_content parse rec ++
      fq_please_include ++ fq_categories ++ fq_format,
      by simp [build_followup_questions_prompt, String.append_assoc]⟩
  · intro h1 h2
    have hsplit : (build_followup_questions_prompt parse rec).data =
        fq_intro.data ++ ((rec.submissionName.getD "Unnamed Submission").data ++
          (fq_analysis_label.data ++ ((extract_analysis_content parse rec).data ++
            (fq_please_include.data ++ (fq_categories.data ++ fq_format.data))))) := by
      simp [build_followup_questions_prompt, String.data_append, List.append_assoc]
    rw [hsplit]
    have hbl : fq_categories.data = '1' :: fq_categories.data.tail := rfl
    rw [hbl]
    rw [occCount_append_zero fq_intro.data _ (by decide)]
    rw [occCount_append_zero _ _ h1]
    rw [occCount_append_zero fq_analysis_label.data _ (by decide)]
    rw [occCount_append_zero _ _ h2]
    rw [occCount_append_zero fq_please_include.data _ (by decide)]
    rw [occCount_front _ (by decide)]
    rw [occCount_eq_zero (by decide)]

/-- C6, witness: a record named `"Alice CV"` with an unparseable payload
yields a prompt containing the name and exactly one instruction block. -/
theorem followup_prompt_name_and_block_witness :
    (∃ s1 s2 : String,
      build_followup_questions_prompt parseFailAll
          ⟨some "Alice CV", some "not json", some "", some ""⟩ =
        s1 ++ "Alice CV" ++ s2) ∧
    occCount fq_categories.data
        (build_followup_questions_prompt parseFailAll
          ⟨some "Alice CV", some "not json", some "", some ""⟩).data = 1 :=
  ⟨(followup_prompt_name_and_block parseFailAll
      ⟨some "Alice CV", some "not json", some "", some ""⟩).1,
    (followup_prompt_name_and_block parseFailAll
      ⟨some "Alice CV", some "not json", some "", some ""⟩).2
      (by decide) (by decide)⟩

/-- C7: when the chat-completion call raises (transport failure) or the
response lacks the expected fields, `get_chat_completion` yields `None`; and
whenever the completion yields `None`, `summarize_submission_analyses`
returns the string `"Failed to generate comparative analysis due to an
error."` and `generate_followup_questions` returns `"Failed to generate
follow-up questions due to an error."` — returned values, not exceptions
(all the embedded functions are total). -/
theorem completion_failure_sentinels :
    (AzureOpenAIClient.get_chat_completion (.error ()) = none) ∧
    (∀ kvs : List (String × JsonValue),
        kvs.any (fun kv => kv.1 == "choices") = false →
          AzureOpenAIClient.get_chat_completion (.ok (.obj kvs)) = none) ∧
    (∀ (gcc : List ChatMessage → Option String)
        (parse : String → Except Unit JsonValue) (rec : ResultRecord),
        gcc [⟨"system", followup_system_content⟩,
             ⟨"user", build_followup_questions_prompt parse rec⟩] = none →
          generate_followup_questions gcc parse rec =
            "Failed to generate follow-up questions due to an error.") ∧
    (∀ (gcc : List ChatMessage → Option String)
        (parse : String → Except Unit JsonValue)
        (analyses : List ResultRecord),
        gcc [⟨"system", summary_system_content⟩,
             ⟨"user", build_comparison_prompt parse analyses⟩] = none →
          summarize_submission_analyses gcc parse analyses =
            "Failed to generate comparative analysis due to an error.") := by
  refine ⟨rfl, ?_, ?_, ?_⟩
  · intro kvs h
    simp [AzureOpenAIClient.get_chat_completion, JsonValue.containsStr, h,
      bind, Except.bind, pure, Except.pure]
  · intro gcc parse rec h
    simp only [generate_followup_questions, h]
    rfl
  · intro gcc parse analyses h
    simp only [summarize_submission_analyses, h]
    rfl

/-- C7, witness: a completion that always yields `None` makes both callers
return their sentinels, and an erroring HTTP call yields `None`. -/
theorem completion_failure_sentinels_witness :
    generate_followup_questions (fun _ => none) parseFailAll
        ⟨some "A", some "raw-a", some "", some ""⟩ =
      "Failed to generate follow-up questions due to an error." ∧
    summarize_submission_analyses (fun _ => none) parseFailAll
        [⟨some "A", some "raw-a", some "", some ""⟩] =
      "Failed to generate comparative analysis due to an error." ∧
    AzureOpenAIClient.get_chat_completion (.ok (.obj [("id", .str "x")])) =
      none :=
  ⟨completion_failure_sentinels.2.2.1 (fun _ => none) parseFailAll
      ⟨some "A", some "raw-a", some "", some ""⟩ rfl,
    completion_failure_sentinels.2.2.2 (fun _ => none) parseFailAll
      [⟨some "A", some "raw-a", some "", some ""⟩] rfl,
    completion_failure_sentinels.2.1 [("id", .str "x")] rfl⟩

/-- C10: the success check in both callers is Python truthiness of the
completion result, not a `None` test: a non-`None` but empty completion
string also selects the failure sentinel. -/
theorem empty_completion_sentinels :
    (∀ (gcc : List ChatMessage → Option String)
        (parse : String → Except Unit JsonValue) (rec : ResultRecord),
        gcc [⟨"system", followup_system_content⟩,
             ⟨"user", build_followup_questions_prompt parse rec⟩] = some "" →
          generate_followup_questions gcc parse rec =
            "Failed to generate follow-up questions due to an error.") ∧
    (∀ (gcc : List ChatMessage → Option String)
        (parse : String → Except Unit JsonValue)
        (analyses : List ResultRecord),
        gcc [⟨"system", summary_system_content⟩,
             ⟨"user", build_comparison_prompt parse analyses⟩] = some "" →
          summarize_submission_analyses gcc parse analyses =
            "Failed to generate comparative analysis due to an error.") := by
  constructor
  · intro gcc parse rec h
    simp only [generate_followup_questions, h]
    rfl
  · intro gcc parse analyses h
    simp only [summarize_submission_analyses, h]
    rfl

/-- C10, witness: a completion that always yields the empty string makes
both callers return their sentinels. -/
theorem empty_completion_sentinels_witness :
    generate_followup_questions (fun _ => some "") parseFailAll
        ⟨some "A", some "raw-a", some "", some ""⟩ =
      "Failed to generate follow-up questions due to an error." ∧
    summarize_submission_analyses (fun _ => some "") parseFailAll
        [⟨some "A", some "raw-a", some "", some ""⟩] =
      "Failed to generate comparative analysis due to an error." :=
  ⟨empty_completion_sentinels.1 (fun _ => some "") parseFailAll
      ⟨some "A", some "raw-a", some "", some ""⟩ rfl,
    empty_completion_sentinels.2 (fun _ => some "") parseFailAll
      [⟨some "A", some "raw-a", some "", some ""⟩] rfl⟩

/-- C8, counterexample: when the backend response lacks the
`agent_response` payload, the record's `"Analysis"` field is set to the
sentinel `"Analysis failed"`, not to a `"no analysis available"` string as
the claim names it (the `"No analysis available"` sentinel belongs to the
extractor, not to `process_submissions`). -/
theorem process_submissions_sentinel_text :
    process_submissions (fun _ => "text") (fun _ _ => ⟨none, none, none, none⟩)
        [⟨"cv.pdf"⟩] =
      [⟨some "cv.pdf", some "Analysis failed", some "", some ""⟩] ∧
    ("Analysis failed" : String) ≠ "no analysis available" ∧
    ("Analysis failed" : String) ≠ "No analysis available" := by
  refine ⟨rfl, ?_, ?_⟩ <;> decide

/-- C8 (amended): every record produced by `process_submissions` has a
present `analysis` field, and when the (non-error) backend response lacks
the `agent_response` payload the field is set to the sentinel string
`"Analysis failed"` rather than omitted. -/
theorem process_submissions_analysis_present :
    (∀ (ext : UploadedFile → String) (cc : String → String → ApiResponse)
        (files : List UploadedFile) (rec : ResultRecord),
        rec ∈ process_submissions ext cc files → rec.analysis.isSome = true) ∧
    (∀ (ext : UploadedFile → String) (cc : String → String → ApiResponse)
        (f : UploadedFile),
        (cc (ext f) (submissionIdentifier 0)).error = none →
        (cc (ext f) (submissionIdentifier 0)).agent_response = none →
          process_submissions ext cc [f] =
            [{ submissionName := some f.name,
               analysis := some "Analysis failed",
               threadId := some ((cc (ext f) (submissionIdentifier 0)).thread_id.getD ""),
               messageId := some ((cc (ext f) (submissionIdentifier 0)).message_id.getD "") }]) := by
  constructor
  · intro ext cc files rec hmem
    rw [process_submissions_eq_filterMap] at hmem
    obtain ⟨p, _, heq⟩ := List.mem_filterMap.mp hmem
    exact submissionRecord_analysis_isSome ext cc p.1 p.2 rec heq
  · intro ext cc f he ha
    have henum : List.enum [f] = [(0, f)] := rfl
    unfold process_submissions
    rw [henum, List.foldl_cons]
    simp [he, ha]

/-- C8, witness: a response with no `agent_response` key produces a record
whose analysis field is present and equal to `"Analysis failed"`. -/
theorem process_submissions_analysis_present_witness :
    process_submissions (fun _ => "text")
        (fun _ _ => ⟨none, none, some "t1", some "m1"⟩) [⟨"cv.pdf"⟩] =
      [⟨some "cv.pdf", some "Analysis failed", some "t1", some "m1"⟩] ∧
    (⟨some "cv.pdf", some "Analysis failed", some "t1", some "m1"⟩ :
        ResultRecord).analysis.isSome = true :=
  ⟨process_submissions_analysis_present.2 (fun _ => "text")
      (fun _ _ => ⟨none, none, some "t1", some "m1"⟩) ⟨"cv.pdf"⟩ rfl rfl,
    process_submissions_analysis_present.1 (fun _ => "text")
      (fun _ _ => ⟨none, none, some "t1", some "m1"⟩) [⟨"cv.pdf"⟩]
      ⟨some "cv.pdf", some "Analysis failed", some "t1", some "m1"⟩
      (by decide)⟩

/-- C9: `process_submissions` returns exactly the per-file records of the
non-error responses, in upload order: it equals `filterMap` of the per-file
record builder over the enumerated uploads, where a response carrying an
`"error"` key yields `none` (no placeholder record) and a non-error
response yields exactly one record. -/
theorem process_submissions_per_file :
    (∀ (ext : UploadedFile → String) (cc : String → String → ApiResponse)
        (files : List UploadedFile),
        process_submissions ext cc files =
          files.enum.filterMap (fun p => submissionRecord ext cc p.1 p.2)) ∧
    (∀ (ext : UploadedFile → String) (cc : String → String → ApiResponse)
        (i : Nat) (f : UploadedFile),
        ((cc (ext f) (submissionIdentifier i)).error.isSome = true →
          submissionRecord ext cc i f = none) ∧
        ((cc (ext f) (submissionIdentifier i)).error.isSome = false →
          submissionRecord ext cc i f =
            some { submissionName := some f.name,
                   analysis := some ((cc (ext f) (submissionIdentifier i)).agent_response.getD "Analysis failed"),
                   threadId := some ((cc (ext f) (submissionIdentifier i)).thread_id.getD ""),
                   messageId := some ((cc (ext f) (submissionIdentifier i)).message_id.getD "") })) := by
  refine ⟨process_submissions_eq_filterMap, ?_⟩
  intro ext cc i f
  constructor <;> intro h <;> simp [submissionRecord, h]

/-- C9, witness: with one erroring upload and one successful upload, the
output contains exactly the successful upload's record. -/
theorem process_submissions_per_file_witness :
    process_submissions (fun f => f.name)
        (fun text _ => if text = "bad" then ⟨some "boom", none, none, none⟩
          else ⟨none, some "ok", none, none⟩)
        [⟨"bad"⟩, ⟨"good"⟩] =
      List.filterMap
        (fun p => submissionRecord (fun f => f.name)
          (fun text _ => if text = "bad" then ⟨some "boom", none, none, none⟩
            else ⟨none, some "ok", none, none⟩) p.1 p.2)
        (List.enum [⟨"bad"⟩, ⟨"good"⟩]) ∧
    submissionRecord (fun f => f.name)
        (fun text _ => if text = "bad" then ⟨some "boom", none, none, none⟩
          else ⟨none, some "ok", none, none⟩) 0 ⟨"bad"⟩ = none ∧
    submissionRecord (fun f => f.name)
        (fun text _ => if text = "bad" then ⟨some "boom", none, none, none⟩
          else ⟨none, some "ok", none, none⟩) 1 ⟨"good"⟩ =
      some ⟨some "good", some "ok", some "", some ""⟩ :=
  ⟨process_submissions_per_file.1 (fun f => f.name)
      (fun text _ => if text = "bad" then ⟨some "boom", none, none, none⟩
        else ⟨none, some "ok", none, none⟩) [⟨"bad"⟩, ⟨"good"⟩],
    (process_submissions_per_file.2 (fun f => f.name)
      (fun text _ => if text = "bad" then ⟨some "boom", none, none, none⟩
        else ⟨none, some "ok", none, none⟩) 0 ⟨"bad"⟩).1 rfl,
    (process_submissions_per_file.2 (fun f => f.name)
      (fun text _ => if text = "bad" then ⟨some "boom", none, none, none⟩
        else ⟨none, some "ok", none, none⟩) 1 ⟨"good"⟩).2 rfl⟩
